import Mathlib

set_option maxHeartbeats 1000000

/-
Verification of pylibCZIrw/build_ext.py, the CMake build-orchestration script
of the pylibCZIrw repository.  The script is shallowly embedded: every
subprocess invocation becomes a `Cmd` value, every observable effect an
`Event`, and the two entry points `CMakeBuild.run` and
`CMakeBuild.build_extension` become functions from an explicit context
(`BuildCtx`, holding the host platform string, the process environment, the
filesystem-existence oracle, the subprocess exit-code and stdout oracles, and
the various setuptools-provided values) to the ordered list of events
performed together with the raised error, if any.
-/

-- ===== Subprocess commands and observable events =====

-- The four subprocess shapes used by build_ext.py:
--  * `subprocess.check_output(argv)`         (raises CalledProcessError on nonzero exit)
--  * `subprocess.run(script, shell=True, check=False)`  (exit status ignored)
--  * `subprocess.run(argv, check=False)`     (exit status ignored)
--  * `subprocess.check_call(argv, cwd=..., env=...)`    (raises on nonzero exit)
inductive Cmd where
  | checkOutput (argv : List String)
  | runShellNoCheck (script : String)
  | runArgvNoCheck (argv : List String)
  | checkCall (argv : List String) (cwd : String) (env : List (String × String))
deriving DecidableEq

-- A command whose nonzero exit status raises in Python.
def Cmd.isChecked : Cmd → Bool
  | .checkOutput _ => true
  | .checkCall _ _ _ => true
  | _ => false

inductive Event where
  | proc (c : Cmd)
  | makedirs (dir : String)
deriving DecidableEq

def Event.isCheckedProc : Event → Bool
  | .proc c => c.isChecked
  | .makedirs _ => false

-- Python exceptions that build_ext.py can raise.
inductive BuildErr where
  | runtimeError (msg : String)
  | calledProcessError (c : Cmd)
  | keyError (k : String)
  | attributeError
  | invalidVersion (s : String)
deriving DecidableEq

-- Outcome of `subprocess.check_output(["cmake", "--version"])`:
-- OSError (binary missing, caught), nonzero exit (CalledProcessError,
-- uncaught), or success with decoded stdout.
inductive ProbeResult where
  | osError
  | nonzeroExit
  | ok (out : String)
deriving DecidableEq

-- The explicit state the script reads: platform.system(), os.environ,
-- self.debug, os.path.exists, subprocess results, sys.executable,
-- Path(...).parent / os.path.dirname / os.path.abspath,
-- self.get_ext_fullpath, self.distribution.get_version(), self.build_temp.
structure BuildCtx where
  platSystem : String
  environ : List (String × String)
  debug : Bool
  pathExists : String → Bool
  exitCode : Cmd → Int
  stdoutOf : Cmd → String
  probe : ProbeResult
  pyExecutable : String
  pathParent : String → String
  getExtFullpath : String → String
  dirname : String → String
  abspath : String → String
  version : String
  buildTemp : String

-- ===== Environment-dictionary operations =====

-- os.environ.get(k, d)
def envGet (e : List (String × String)) (k d : String) : String :=
  (e.lookup k).getD d

-- dict assignment `env[k] = v` on an association list (Python dicts have
-- unique keys; only `lookup` of the result is ever observed).
def envSet (e : List (String × String)) (k v : String) : List (String × String) :=
  (k, v) :: e.filter (fun p => !(p.1 == k))

-- ===== String containment (Python `needle in haystack`) =====

def charsStartWith : List Char → List Char → Bool
  | [], _ => true
  | _ :: _, [] => false
  | a :: as, b :: bs => a == b && charsStartWith as bs

def charsContain (pat : List Char) : List Char → Bool
  | [] => pat.isEmpty
  | c :: cs => charsStartWith pat (c :: cs) || charsContain pat cs

def strContains (s pat : String) : Bool :=
  charsContain pat.toList s.toList

-- str.lower() / str.upper(); the values involved (AUDITWHEEL_PLAT, the
-- configuration name "Debug"/"Release") are ASCII, where Char.toLower and
-- Char.toUpper agree with Python.
def strLower (s : String) : String := String.mk (s.toList.map Char.toLower)

def strUpper (s : String) : String := String.mk (s.toList.map Char.toUpper)

-- ===== re.search(r"version\s*([\d.]+)", out) and packaging.version.Version =====

-- Match a literal at the head, returning the remainder.
def dropLit : List Char → List Char → Option (List Char)
  | [], s => some s
  | _ :: _, [] => none
  | p :: ps, c :: cs => if p == c then dropLit ps cs else none

def isVerChar (c : Char) : Bool := c.isDigit || c == '.'

-- First occurrence of "version", then `\s*`, then a nonempty maximal run of
-- [\d.]; `none` models re.search returning None (so `.group(1)` raises).
def extractVersion : List Char → Option String
  | [] => none
  | c :: cs =>
    match dropLit "version".toList (c :: cs) with
    | some rest =>
      let digits := (rest.dropWhile Char.isWhitespace).takeWhile isVerChar
      if digits.isEmpty then extractVersion cs else some (String.mk digits)
    | none => extractVersion cs

-- Split on '.' (the string-level splitOn specialised to the version grammar).
def splitDots : List Char → List (List Char)
  | [] => [[]]
  | c :: cs =>
    if c == '.' then [] :: splitDots cs
    else
      match splitDots cs with
      | [] => [[c]]
      | h :: t => (c :: h) :: t

def digitsVal : List Char → Nat → Option Nat
  | [], acc => some acc
  | c :: cs, acc => if c.isDigit then digitsVal cs (acc * 10 + (c.toNat - 48)) else none

-- int() on one dotted component; none on the empty component.
def digitsToNat : List Char → Option Nat
  | [] => none
  | l => digitsVal l 0

-- packaging Version on a [\d.]+ string: the dotted release tuple; `none`
-- models InvalidVersion (an empty component, e.g. "3." or "3..1").
def parseVersion (s : String) : Option (List Nat) :=
  (splitDots s.toList).mapM digitsToNat

-- packaging release-tuple comparison: lexicographic with zero padding.
def verLt : List Nat → List Nat → Bool
  | [], ys => ys.any (fun y => decide (0 < y))
  | x :: xs, [] => x == 0 && verLt xs []
  | x :: xs, y :: ys => decide (x < y) || (x == y && verLt xs ys)

-- ===== os.path.join (all components used here are separator-free tails) =====

def os_path_join (platSystem : String) (parts : List String) : String :=
  String.intercalate (if platSystem == "Windows" then "\\" else "/") parts

-- ===== Values assembled by build_extension =====

def vcpkg_root (ctx : BuildCtx) : String :=
  if ctx.platSystem == "Windows" then
    envGet ctx.environ "VCPKG_INSTALLATION_ROOT" "C:\\vcpkg"
  else
    envGet ctx.environ "VCPKG_INSTALLATION_ROOT" "/usr/local/share/vcpkg"

def cfgOf (ctx : BuildCtx) : String := if ctx.debug then "Debug" else "Release"

-- extdir = os.path.abspath(os.path.dirname(self.get_ext_fullpath(ext.name)))
def extdirOf (ctx : BuildCtx) (extName : String) : String :=
  ctx.abspath (ctx.dirname (ctx.getExtFullpath extName))

-- "manylinux" in os.environ.get("AUDITWHEEL_PLAT", "").lower()
def manylinuxRequested (ctx : BuildCtx) : Bool :=
  strContains (strLower (envGet ctx.environ "AUDITWHEEL_PLAT" "")) "manylinux"

-- Flags appended unconditionally before the platform branch (lines 52-64).
def cmake_args_base (ctx : BuildCtx) (extName : String) : List String :=
  ["-DCMAKE_LIBRARY_OUTPUT_DIRECTORY=" ++ extdirOf ctx extName,
   "-DPYTHON_EXECUTABLE=" ++ ctx.pyExecutable,
   "-DLIBCZI_BUILD_DYNLIB=OFF",
   "-DLIBCZI_BUILD_UNITTESTS=OFF",
   "-DLIBCZI_BUILD_CURL_BASED_STREAM=ON",
   "-DPYLIBCZIRW_VERSION=" ++ ctx.version]

-- The full ordered cmake flag list (meaningful when the Windows branch does
-- not raise; the raise itself is performed by CMakeBuild.build_extension).
def cmake_args (ctx : BuildCtx) (extName : String) : List String :=
  cmake_args_base ctx extName ++
  (if ctx.platSystem == "Windows" then
    ["-DCMAKE_LIBRARY_OUTPUT_DIRECTORY_" ++ strUpper (cfgOf ctx) ++ "=" ++ extdirOf ctx extName,
     "-DVCPKG_TARGET_TRIPLET=x64-windows-static"] ++
    (if ctx.pathExists (vcpkg_root ctx) then
      ["-DLIBCZI_BUILD_PREFER_EXTERNALPACKAGE_LIBCURL=ON",
       "-DLIBCZI_BUILD_PREFER_EXTERNALPACKAGE_EIGEN3=ON",
       "-DCMAKE_TOOLCHAIN_FILE=" ++
         os_path_join ctx.platSystem [vcpkg_root ctx, "scripts", "buildsystems", "vcpkg.cmake"]]
     else [])
  else
    (if manylinuxRequested ctx then
      ["-DOPENSSL_USE_STATIC_LIBS=TRUE",
       "-DOPENSSL_ROOT_DIR=/tmp/openssl",
       "-DZLIB_USE_STATIC_LIBS=TRUE"]
     else []) ++
    (if ctx.pathExists (vcpkg_root ctx) then
      ["-DCMAKE_TOOLCHAIN_FILE=" ++
         os_path_join ctx.platSystem [vcpkg_root ctx, "scripts", "buildsystems", "vcpkg.cmake"],
       "-DLIBCZI_BUILD_PREFER_EXTERNALPACKAGE_LIBCURL=ON"]
     else ["-DLIBCZI_BUILD_PREFER_EXTERNALPACKAGE_LIBCURL=OFF"]) ++
    ["-DCMAKE_BUILD_TYPE=" ++ cfgOf ctx])

def build_args (ctx : BuildCtx) : List String :=
  ["--config", cfgOf ctx] ++
    (if ctx.platSystem == "Windows" then ["--", "/m"] else ["--", "-j2"])

-- path_var = str(Path(sys.executable).parent) + ":" + os.environ["PATH"]
def path_var (ctx : BuildCtx) : String :=
  ctx.pathParent ctx.pyExecutable ++ ":" ++ envGet ctx.environ "PATH" ""

-- env["CXXFLAGS"] = '{} -DVERSION_INFO=\"{}\"'.format(env.get("CXXFLAGS", ""), version)
def cxxflags_value (ctx : BuildCtx) : String :=
  envGet (envSet ctx.environ "PATH" (path_var ctx)) "CXXFLAGS" "" ++
    " -DVERSION_INFO=\\\"" ++ ctx.version ++ "\\\""

-- env = dict(os.environ.copy(), PATH=path_var); later env["CXXFLAGS"] = ...
def child_env (ctx : BuildCtx) : List (String × String) :=
  envSet (envSet ctx.environ "PATH" (path_var ctx)) "CXXFLAGS" (cxxflags_value ctx)

-- ===== The manylinux local dependency builds (lines 103-122) =====

def zlib_build_script : String :=
  "cd /tmp && " ++
  "git clone --branch v1.3 https://github.com/madler/zlib.git && " ++
  "cd zlib && " ++
  "CFLAGS=-fPIC ./configure --static && " ++
  "make -j2 && " ++
  "make install"

def openssl_build_script : String :=
  "cd /tmp && " ++
  "git clone --branch openssl-3.2.0 https://github.com/openssl/openssl.git && " ++
  "cd openssl && " ++
  "mkdir build && " ++
  "./config no-shared -static zlib -fPIC -L/usr/lib no-docs no-tests && " ++
  "make -j2"

-- ===== check_and_install_packages (lines 180-211) =====

def vcpkg_list_cmd (platSystem package triplet root : String) : Cmd :=
  .runArgvNoCheck [os_path_join platSystem [root, "vcpkg"], "list", package,
    "--triplet=" ++ triplet, "--vcpkg-root=" ++ root]

def vcpkg_install_cmd (platSystem package triplet root : String) : Cmd :=
  .runArgvNoCheck [os_path_join platSystem [root, "vcpkg"], "install", package,
    "--triplet=" ++ triplet, "--vcpkg-root=" ++ root]

-- For each package: always run the `list` query; run `install` exactly when
-- the package name does not occur in the query's stdout.  Both subprocesses
-- use check=False, so their exit codes are never consulted.
def check_and_install_packages (ctx : BuildCtx) :
    List String → String → String → List Event
  | [], _, _ => []
  | package :: rest, triplet, root =>
    (if strContains (ctx.stdoutOf (vcpkg_list_cmd ctx.platSystem package triplet root)) package then
      [Event.proc (vcpkg_list_cmd ctx.platSystem package triplet root)]
     else
      [Event.proc (vcpkg_list_cmd ctx.platSystem package triplet root),
       Event.proc (vcpkg_install_cmd ctx.platSystem package triplet root)]) ++
    check_and_install_packages ctx rest triplet root

-- ===== build_extension effects =====

-- Dependency-provisioning subprocesses performed during flag assembly.
def dep_events (ctx : BuildCtx) : List Event :=
  if ctx.platSystem == "Windows" then
    if ctx.pathExists (vcpkg_root ctx) then
      check_and_install_packages ctx ["curl[ssl]", "eigen3"] "x64-windows-static" (vcpkg_root ctx)
    else []
  else
    (if manylinuxRequested ctx then
      [Event.proc (Cmd.runShellNoCheck zlib_build_script),
       Event.proc (Cmd.runShellNoCheck openssl_build_script)]
     else []) ++
    (if ctx.pathExists (vcpkg_root ctx) then
      check_and_install_packages ctx ["curl[ssl]"] "x64-linux" (vcpkg_root ctx)
     else [])

def makedirs_events (ctx : BuildCtx) : List Event :=
  if ctx.pathExists ctx.buildTemp then [] else [Event.makedirs ctx.buildTemp]

-- subprocess.check_call(["cmake", ext.sourcedir] + cmake_args, cwd=build_temp, env=env)
def configure_cmd (ctx : BuildCtx) (extName sourcedir : String) : Cmd :=
  .checkCall (["cmake", sourcedir] ++ cmake_args ctx extName) ctx.buildTemp (child_env ctx)

-- subprocess.check_call(["cmake", "--build", ".", "--target", "_pylibCZIrw"] + build_args, ...)
def cmake_build_cmd (ctx : BuildCtx) : Cmd :=
  .checkCall (["cmake", "--build", ".", "--target", "_pylibCZIrw"] ++ build_args ctx)
    ctx.buildTemp (child_env ctx)

def Cmd.envOf : Cmd → List (String × String)
  | .checkCall _ _ e => e
  | _ => []

-- CMakeBuild.build_extension: events performed, and the exception raised if
-- any.  os.environ["PATH"] raises KeyError when PATH is unset; on Windows a
-- missing vcpkg root raises RuntimeError; the two check_call invocations
-- raise CalledProcessError on nonzero exit; the check=False runs never raise.
def CMakeBuild.build_extension (ctx : BuildCtx) (extName sourcedir : String) :
    List Event × Option BuildErr :=
  if (ctx.environ.lookup "PATH").isNone then ([], some (.keyError "PATH"))
  else if ctx.platSystem == "Windows" && !ctx.pathExists (vcpkg_root ctx) then
    ([], some (.runtimeError
      "vcpkg installation not found, please define your VCPKG_INSTALLATION_ROOT path"))
  else if ctx.exitCode (configure_cmd ctx extName sourcedir) != 0 then
    (dep_events ctx ++ makedirs_events ctx ++ [Event.proc (configure_cmd ctx extName sourcedir)],
     some (.calledProcessError (configure_cmd ctx extName sourcedir)))
  else if ctx.exitCode (cmake_build_cmd ctx) != 0 then
    (dep_events ctx ++ makedirs_events ctx ++
       [Event.proc (configure_cmd ctx extName sourcedir), Event.proc (cmake_build_cmd ctx)],
     some (.calledProcessError (cmake_build_cmd ctx)))
  else
    (dep_events ctx ++ makedirs_events ctx ++
       [Event.proc (configure_cmd ctx extName sourcedir), Event.proc (cmake_build_cmd ctx)],
     none)

-- ===== CMakeBuild.run =====

def probe_cmd : Cmd := .checkOutput ["cmake", "--version"]

-- The RuntimeError message of lines 32-35 (os.environ.get('PATH') formats as
-- "None" when PATH is unset).
def missing_cmake_msg (ctx : BuildCtx) (extNames : List String) : String :=
  "CMake must be installed and available at PATH (" ++
    (match ctx.environ.lookup "PATH" with | some p => p | none => "None") ++
    ") to build the following extensions: " ++ String.intercalate ", " extNames

-- `for ext in self.extensions: self.build_extension(ext)`; an exception in
-- one extension's build propagates and stops the loop.
def build_loop (ctx : BuildCtx) : List (String × String) → List Event × Option BuildErr
  | [] => ([], none)
  | e :: rest =>
    match CMakeBuild.build_extension ctx e.1 e.2 with
    | (evs, some err) => (evs, some err)
    | (evs, none) =>
      let r := build_loop ctx rest
      (evs ++ r.1, r.2)

-- CMakeBuild.run: probe cmake, parse its version (on every platform), apply
-- the >= 3.1.0 check only on Windows, then build each extension.
def CMakeBuild.run (ctx : BuildCtx) (exts : List (String × String)) :
    List Event × Option BuildErr :=
  match ctx.probe with
  | .osError =>
    ([Event.proc probe_cmd],
     some (.runtimeError (missing_cmake_msg ctx (exts.map Prod.fst))))
  | .nonzeroExit => ([Event.proc probe_cmd], some (.calledProcessError probe_cmd))
  | .ok out =>
    match extractVersion out.toList with
    | none => ([Event.proc probe_cmd], some .attributeError)
    | some vs =>
      match parseVersion vs with
      | none => ([Event.proc probe_cmd], some (.invalidVersion vs))
      | some v =>
        if ctx.platSystem == "Windows" && verLt v [3, 1, 0] then
          ([Event.proc probe_cmd],
           some (.runtimeError "CMake >= 3.1.0 is required on Windows"))
        else
          let r := build_loop ctx exts
          (Event.proc probe_cmd :: r.1, r.2)

-- ===== Concrete contexts used by counterexamples and witnesses =====

def linuxCtx : BuildCtx where
  platSystem := "Linux"
  environ := [("PATH", "/usr/bin")]
  debug := false
  pathExists := fun p => p == "/usr/local/share/vcpkg"
  exitCode := fun _ => 0
  stdoutOf := fun _ => "curl[ssl] 8.4.0 x64-linux"
  probe := .ok "cmake version 3.28.1"
  pyExecutable := "/usr/bin/python3"
  pathParent := fun _ => "/usr/bin"
  getExtFullpath := fun _ => "/proj/out/_pylibCZIrw.so"
  dirname := fun _ => "/proj/out"
  abspath := fun p => p
  version := "4.1.3"
  buildTemp := "/proj/bt"

def winCtx : BuildCtx where
  platSystem := "Windows"
  environ := [("PATH", "C:\\bin"), ("VCPKG_INSTALLATION_ROOT", "C:\\vc")]
  debug := false
  pathExists := fun p => p == "C:\\vc"
  exitCode := fun _ => 0
  stdoutOf := fun _ => "curl[ssl] eigen3"
  probe := .ok "cmake version 3.28.1"
  pyExecutable := "C:\\py\\python.exe"
  pathParent := fun _ => "C:\\py"
  getExtFullpath := fun _ => "C:\\out\\_pylibCZIrw.pyd"
  dirname := fun _ => "C:\\out"
  abspath := fun p => p
  version := "4.1.3"
  buildTemp := "C:\\bt"

-- The vcpkg install invocation that Linux performs for curl when absent.
def c1InstallCmd : Cmd :=
  vcpkg_install_cmd "Linux" "curl[ssl]" "x64-linux" "/usr/local/share/vcpkg"

-- Linux, vcpkg present, curl not yet installed, and the install exits 1.
def c1Ctx : BuildCtx :=
  { linuxCtx with
      stdoutOf := fun _ => ""
      exitCode := fun c => if c = c1InstallCmd then 1 else 0 }

def c2Ctx : BuildCtx := { linuxCtx with probe := .osError }

def c3Ctx : BuildCtx := { linuxCtx with probe := .ok "cmake version 3.0.2" }

def winOldCMakeCtx : BuildCtx := { winCtx with probe := .ok "cmake version 3.0.2" }

def c5NoVcpkgCtx : BuildCtx := { linuxCtx with pathExists := fun _ => false }

def winNoVcpkgCtx : BuildCtx := { winCtx with pathExists := fun _ => false }

-- Agrees with linuxCtx on platform, environment, debug flag, filesystem,
-- extension directory, interpreter and version; differs in the subprocess
-- oracles only.
def c5TwinCtx : BuildCtx :=
  { linuxCtx with stdoutOf := fun _ => "", probe := .osError }

-- ===== Lookup lemmas for the environment dictionary =====

theorem lookup_filter_ne (e : List (String × String)) (k k' : String) (h : k' ≠ k) :
    (e.filter (fun p => !(p.1 == k))).lookup k' = e.lookup k' := by
  induction e with
  | nil => rfl
  | cons a as ih =>
    by_cases hk : a.1 = k
    · have hk' : (k' == a.1) = false := by
        simp [hk]
        exact h
      have hkk : (k' == k) = false := by simp [h]
      simp [List.filter, List.lookup, hk, hk', hkk, ih]
    · simp only [List.filter]
      have : (a.1 == k) = false := by simp [hk]
      simp only [this, Bool.not_false]
      by_cases hk2 : k' = a.1
      · simp [List.lookup, hk2]
      · have : (k' == a.1) = false := by simp [hk2]
        simp [List.lookup, this, ih]

theorem lookup_envSet_self (e : List (String × String)) (k v : String) :
    (envSet e k v).lookup k = some v := by
  simp [envSet, List.lookup]

theorem lookup_envSet_other (e : List (String × String)) (k v k' : String) (h : k' ≠ k) :
    (envSet e k v).lookup k' = e.lookup k' := by
  have hk : (k' == k) = false := by simp [h]
  simp [envSet, List.lookup, hk, lookup_filter_ne e k k' h]

-- ===== C2 =====

/-- C2 (confirmed): when `subprocess.check_output(["cmake", "--version"])`
raises OSError because the binary is missing, CMakeBuild.run raises a
RuntimeError whose message names CMake and carries the current PATH value,
and the probe is the only event performed: no extension build is attempted. -/
theorem run_reports_missing_cmake (ctx : BuildCtx) (exts : List (String × String)) (p : String)
    (hprobe : ctx.probe = .osError)
    (hpath : ctx.environ.lookup "PATH" = some p) :
    CMakeBuild.run ctx exts =
      ([Event.proc probe_cmd],
       some (.runtimeError
         ("CMake must be installed and available at PATH (" ++ p ++
          ") to build the following extensions: " ++
          String.intercalate ", " (exts.map Prod.fst)))) := by
  simp [CMakeBuild.run, hprobe, missing_cmake_msg, hpath]

/-- C2 witness: the theorem applied to the concrete context c2Ctx. -/
theorem run_reports_missing_cmake_witness :
    c2Ctx.probe = .osError ∧ c2Ctx.environ.lookup "PATH" = some "/usr/bin" ∧
    CMakeBuild.run c2Ctx [("_pylibCZIrw", "/proj/src")] =
      ([Event.proc probe_cmd],
       some (.runtimeError
         ("CMake must be installed and available at PATH (" ++ "/usr/bin" ++
          ") to build the following extensions: " ++
          String.intercalate ", " ([("_pylibCZIrw", "/proj/src")].map Prod.fst)))) :=
  ⟨rfl, by decide,
   run_reports_missing_cmake c2Ctx [("_pylibCZIrw", "/proj/src")] "/usr/bin" rfl (by decide)⟩

-- ===== C10 =====

/-- C10 (confirmed): for every context — the platform string is arbitrary,
so in particular on Windows — the child PATH is assembled with the ':'
character, giving python-dir ++ ":" ++ original PATH. -/
theorem path_prepended_with_colon (ctx : BuildCtx) (p : String)
    (hp : ctx.environ.lookup "PATH" = some p) :
    path_var ctx = ctx.pathParent ctx.pyExecutable ++ ":" ++ p
  ∧ (child_env ctx).lookup "PATH" = some (ctx.pathParent ctx.pyExecutable ++ ":" ++ p) := by
  have h1 : path_var ctx = ctx.pathParent ctx.pyExecutable ++ ":" ++ p := by
    simp [path_var, envGet, hp]
  refine ⟨h1, ?_⟩
  rw [child_env, lookup_envSet_other _ _ _ _ (by decide), lookup_envSet_self, h1]

/-- C10 witness: the theorem applied at winCtx, whose platform is Windows. -/
theorem path_prepended_with_colon_witness :
    winCtx.environ.lookup "PATH" = some "C:\\bin" ∧ winCtx.platSystem = "Windows" ∧
    (path_var winCtx = winCtx.pathParent winCtx.pyExecutable ++ ":" ++ "C:\\bin"
     ∧ (child_env winCtx).lookup "PATH"
         = some (winCtx.pathParent winCtx.pyExecutable ++ ":" ++ "C:\\bin")) :=
  ⟨by decide, rfl, path_prepended_with_colon winCtx "C:\\bin" (by decide)⟩

-- ===== C8 =====

/-- C8 (confirmed): the environment handed to the configure and build
subprocesses is the parent environment with exactly two keys changed — PATH
(interpreter directory prepended) and CXXFLAGS (a -DVERSION_INFO definition
carrying the package version appended) — and every other key unchanged. -/
theorem child_env_spec (ctx : BuildCtx) (n s k p : String)
    (hp : ctx.environ.lookup "PATH" = some p)
    (hk1 : k ≠ "PATH") (hk2 : k ≠ "CXXFLAGS") :
    (child_env ctx).lookup "PATH" = some (ctx.pathParent ctx.pyExecutable ++ ":" ++ p)
  ∧ (child_env ctx).lookup "CXXFLAGS" =
      some (envGet ctx.environ "CXXFLAGS" "" ++ " -DVERSION_INFO=\\\"" ++ ctx.version ++ "\\\"")
  ∧ (child_env ctx).lookup k = ctx.environ.lookup k
  ∧ (configure_cmd ctx n s).envOf = child_env ctx
  ∧ (cmake_build_cmd ctx).envOf = child_env ctx := by
  refine ⟨?_, ?_, ?_, rfl, rfl⟩
  · rw [child_env, lookup_envSet_other _ _ _ _ (by decide), lookup_envSet_self]
    simp [path_var, envGet, hp]
  · rw [child_env, lookup_envSet_self, cxxflags_value,
      show envGet (envSet ctx.environ "PATH" (path_var ctx)) "CXXFLAGS" ""
          = envGet ctx.environ "CXXFLAGS" "" from by
        rw [envGet, envGet, lookup_envSet_other _ _ _ _ (by decide)]]
  · rw [child_env, lookup_envSet_other _ _ _ _ hk2, lookup_envSet_other _ _ _ _ hk1]

/-- C8 witness: the theorem applied at linuxCtx with the untouched key HOME. -/
theorem child_env_spec_witness :
    linuxCtx.environ.lookup "PATH" = some "/usr/bin" ∧
    ((child_env linuxCtx).lookup "PATH"
        = some (linuxCtx.pathParent linuxCtx.pyExecutable ++ ":" ++ "/usr/bin")
     ∧ (child_env linuxCtx).lookup "CXXFLAGS" =
         some (envGet linuxCtx.environ "CXXFLAGS" "" ++ " -DVERSION_INFO=\\\"" ++
           linuxCtx.version ++ "\\\"")
     ∧ (child_env linuxCtx).lookup "HOME" = linuxCtx.environ.lookup "HOME"
     ∧ (configure_cmd linuxCtx "e" "/s").envOf = child_env linuxCtx
     ∧ (cmake_build_cmd linuxCtx).envOf = child_env linuxCtx) :=
  ⟨by decide, child_env_spec linuxCtx "e" "/s" "HOME" "/usr/bin" (by decide)
    (by decide) (by decide)⟩

-- ===== C6 =====

/-- C6 (confirmed): the CMAKE_LIBRARY_OUTPUT_DIRECTORY flag is the very first
flag and carries the absolute dirname of get_ext_fullpath(ext.name); on
Windows the per-configuration variant carries the same directory. -/
theorem output_directory_flags_use_extdir (ctx : BuildCtx) (n : String) :
    (cmake_args ctx n).head? = some ("-DCMAKE_LIBRARY_OUTPUT_DIRECTORY=" ++ extdirOf ctx n)
  ∧ (ctx.platSystem = "Windows" →
      ("-DCMAKE_LIBRARY_OUTPUT_DIRECTORY_" ++ strUpper (cfgOf ctx) ++ "=" ++ extdirOf ctx n)
        ∈ cmake_args ctx n) := by
  constructor
  · simp [cmake_args, cmake_args_base]
  · intro hw
    have h : (ctx.platSystem == "Windows") = true := by simp [hw]
    simp [cmake_args, cmake_args_base, h]

/-- C6 witness: the theorem applied at winCtx. -/
theorem output_directory_flags_use_extdir_witness :
    (cmake_args winCtx "e").head?
        = some ("-DCMAKE_LIBRARY_OUTPUT_DIRECTORY=" ++ extdirOf winCtx "e")
  ∧ ("-DCMAKE_LIBRARY_OUTPUT_DIRECTORY_" ++ strUpper (cfgOf winCtx) ++ "=" ++ extdirOf winCtx "e")
      ∈ cmake_args winCtx "e" :=
  ⟨(output_directory_flags_use_extdir winCtx "e").1,
   (output_directory_flags_use_extdir winCtx "e").2 rfl⟩

-- ===== C9 =====

/-- C9 (confirmed): the absence of the vcpkg root is handled asymmetrically —
on Windows build_extension raises the RuntimeError, while on Linux it
completes without error (given the two checked cmake calls exit zero) and the
flag list carries -DLIBCZI_BUILD_PREFER_EXTERNALPACKAGE_LIBCURL=OFF. -/
theorem vcpkg_missing_asymmetry (wctx lctx : BuildCtx) (n s : String)
    (hwplat : wctx.platSystem = "Windows")
    (hwroot : wctx.pathExists (vcpkg_root wctx) = false)
    (hwpath : (wctx.environ.lookup "PATH").isNone = false)
    (hlplat : lctx.platSystem = "Linux")
    (hlroot : lctx.pathExists (vcpkg_root lctx) = false)
    (hlpath : (lctx.environ.lookup "PATH").isNone = false)
    (hlc : lctx.exitCode (configure_cmd lctx n s) = 0)
    (hlb : lctx.exitCode (cmake_build_cmd lctx) = 0) :
    (CMakeBuild.build_extension wctx n s).2 = some (.runtimeError
      "vcpkg installation not found, please define your VCPKG_INSTALLATION_ROOT path")
  ∧ (CMakeBuild.build_extension lctx n s).2 = none
  ∧ "-DLIBCZI_BUILD_PREFER_EXTERNALPACKAGE_LIBCURL=OFF" ∈ cmake_args lctx n := by
  refine ⟨?_, ?_, ?_⟩
  · have h : (wctx.platSystem == "Windows") = true := by simp [hwplat]
    simp [CMakeBuild.build_extension, hwpath, h, hwroot]
  · have h : (lctx.platSystem == "Windows") = false := by simp [hlplat]
    simp [CMakeBuild.build_extension, hlpath, h, hlc, hlb]
  · have h : (lctx.platSystem == "Windows") = false := by simp [hlplat]
    simp [cmake_args, cmake_args_base, h, hlroot]

/-- C9 witness: the theorem applied at winNoVcpkgCtx and c5NoVcpkgCtx. -/
theorem vcpkg_missing_asymmetry_witness :
    winNoVcpkgCtx.platSystem = "Windows" ∧ c5NoVcpkgCtx.platSystem = "Linux" ∧
    ((CMakeBuild.build_extension winNoVcpkgCtx "e" "/s").2 = some (.runtimeError
        "vcpkg installation not found, please define your VCPKG_INSTALLATION_ROOT path")
     ∧ (CMakeBuild.build_extension c5NoVcpkgCtx "e" "/s").2 = none
     ∧ "-DLIBCZI_BUILD_PREFER_EXTERNALPACKAGE_LIBCURL=OFF" ∈ cmake_args c5NoVcpkgCtx "e") :=
  ⟨rfl, rfl,
   vcpkg_missing_asymmetry winNoVcpkgCtx c5NoVcpkgCtx "e" "/s" rfl (by decide) (by decide)
     rfl (by decide) (by decide) (by decide) (by decide)⟩

-- ===== C4 =====

theorem check_and_install_ignores_exit (ctx : BuildCtx) (e' : Cmd → Int)
    (ps : List String) (t r : String) :
    check_and_install_packages { ctx with exitCode := e' } ps t r
      = check_and_install_packages ctx ps t r := by
  induction ps with
  | nil => rfl
  | cons a as ih => simp [check_and_install_packages, ih]

/-- C4 (confirmed): check_and_install_packages processes the packages in
order (append law), and for a package it first issues the listing query and
issues the install invocation exactly when the package name is absent from
the listing's stdout; the emitted events are independent of all subprocess
exit codes, so a failing install is not escalated and processing always
returns normally (the function is total). -/
theorem check_and_install_packages_spec (ctx : BuildCtx) (t r p : String)
    (ps1 ps2 : List String) (e' : Cmd → Int) :
    check_and_install_packages ctx (ps1 ++ ps2) t r
      = check_and_install_packages ctx ps1 t r ++ check_and_install_packages ctx ps2 t r
  ∧ check_and_install_packages ctx [p] t r
      = (if strContains (ctx.stdoutOf (vcpkg_list_cmd ctx.platSystem p t r)) p then
          [Event.proc (vcpkg_list_cmd ctx.platSystem p t r)]
         else
          [Event.proc (vcpkg_list_cmd ctx.platSystem p t r),
           Event.proc (vcpkg_install_cmd ctx.platSystem p t r)])
  ∧ check_and_install_packages { ctx with exitCode := e' } (ps1 ++ ps2) t r
      = check_and_install_packages ctx (ps1 ++ ps2) t r := by
  refine ⟨?_, ?_, check_and_install_ignores_exit ctx e' (ps1 ++ ps2) t r⟩
  · induction ps1 with
    | nil => simp [check_and_install_packages]
    | cons a as ih => simp [check_and_install_packages, ih]
  · by_cases hc : strContains (ctx.stdoutOf (vcpkg_list_cmd ctx.platSystem p t r)) p
    <;> simp [check_and_install_packages, hc]

-- ===== C3 =====

/-- C3 counterexample: on Linux a detected CMake version 3.0.2, although
below 3.1.0, does not make CMakeBuild.run raise — the run completes without
error, so the version check does not apply on every platform. -/
theorem old_cmake_not_rejected_on_linux :
    c3Ctx.platSystem = "Linux"
  ∧ c3Ctx.probe = .ok "cmake version 3.0.2"
  ∧ extractVersion ("cmake version 3.0.2".toList) = some "3.0.2"
  ∧ parseVersion "3.0.2" = some [3, 0, 2]
  ∧ verLt [3, 0, 2] [3, 1, 0] = true
  ∧ (CMakeBuild.run c3Ctx [("_pylibCZIrw", "/proj/src")]).2 = none :=
  ⟨rfl, rfl, by decide, by decide, by decide, by decide⟩

/-- C3 (amended): when the platform is Windows and the detected CMake
version is below 3.1.0, CMakeBuild.run raises the RuntimeError before
building any extension (the probe is the only event); on other platforms the
version comparison is not performed. -/
theorem old_cmake_rejected_on_windows (ctx : BuildCtx) (exts : List (String × String))
    (out vs : String) (v : List Nat)
    (hw : ctx.platSystem = "Windows")
    (hprobe : ctx.probe = .ok out)
    (hex : extractVersion out.toList = some vs)
    (hpv : parseVersion vs = some v)
    (hlt : verLt v [3, 1, 0] = true) :
    CMakeBuild.run ctx exts =
      ([Event.proc probe_cmd],
       some (.runtimeError "CMake >= 3.1.0 is required on Windows")) := by
  have h : (ctx.platSystem == "Windows") = true := by simp [hw]
  have hex' : extractVersion out.data = some vs := hex
  simp [CMakeBuild.run, hprobe, hex', hpv, h, hlt]

/-- C3 witness: the amended theorem applied at winOldCMakeCtx. -/
theorem old_cmake_rejected_on_windows_witness :
    winOldCMakeCtx.platSystem = "Windows"
  ∧ winOldCMakeCtx.probe = .ok "cmake version 3.0.2"
  ∧ CMakeBuild.run winOldCMakeCtx [("_pylibCZIrw", "/proj/src")] =
      ([Event.proc probe_cmd],
       some (.runtimeError "CMake >= 3.1.0 is required on Windows")) :=
  ⟨rfl, rfl,
   old_cmake_rejected_on_windows winOldCMakeCtx [("_pylibCZIrw", "/proj/src")]
     "cmake version 3.0.2" "3.0.2" [3, 0, 2] rfl rfl (by decide) (by decide) (by decide)⟩

-- ===== C5 =====

/-- C5 counterexample: two contexts agreeing on platform, environment
variables and debug flag but differing in filesystem state (the vcpkg root
exists in one and not the other) produce different flag lists, so the flag
list is not a pure function of those three inputs alone. -/
theorem cmake_args_not_env_determined :
    linuxCtx.platSystem = c5NoVcpkgCtx.platSystem
  ∧ linuxCtx.environ = c5NoVcpkgCtx.environ
  ∧ linuxCtx.debug = c5NoVcpkgCtx.debug
  ∧ cmake_args linuxCtx "e" ≠ cmake_args c5NoVcpkgCtx "e" :=
  ⟨rfl, rfl, rfl, by decide⟩

/-- C5 (amended): the composed flag list is a pure function of the host
platform, the environment variables, the debug flag, the filesystem
existence of the vcpkg root, the extension output directory, the Python
executable path and the package version: two contexts agreeing on these
produce identical ordered flag lists.  (Flag assembly can raise: on Windows
a missing vcpkg root aborts, as proved for C9; missing environment values
are defaulted.) -/
theorem cmake_args_deterministic (ctx ctx' : BuildCtx) (n : String)
    (h1 : ctx.platSystem = ctx'.platSystem)
    (h2 : ctx.environ = ctx'.environ)
    (h3 : ctx.debug = ctx'.debug)
    (h4 : ctx.pathExists (vcpkg_root ctx) = ctx'.pathExists (vcpkg_root ctx'))
    (h5 : extdirOf ctx n = extdirOf ctx' n)
    (h6 : ctx.pyExecutable = ctx'.pyExecutable)
    (h7 : ctx.version = ctx'.version) :
    cmake_args ctx n = cmake_args ctx' n := by
  have hroot : vcpkg_root ctx = vcpkg_root ctx' := by simp only [vcpkg_root, h1, h2]
  have hcfg : cfgOf ctx = cfgOf ctx' := by simp only [cfgOf, h3]
  have hman : manylinuxRequested ctx = manylinuxRequested ctx' := by
    simp only [manylinuxRequested, h2]
  have hbase : cmake_args_base ctx n = cmake_args_base ctx' n := by
    simp only [cmake_args_base, h5, h6, h7]
  simp only [cmake_args]
  rw [hbase, h4, h1, hroot, hcfg, hman, h5]

/-- C5 witness: the amended theorem applied to linuxCtx and a context that
differs from it only in subprocess oracles, which are outside the stated
input set. -/
theorem cmake_args_deterministic_witness :
    linuxCtx.platSystem = c5TwinCtx.platSystem
  ∧ linuxCtx.environ = c5TwinCtx.environ
  ∧ linuxCtx.debug = c5TwinCtx.debug
  ∧ cmake_args linuxCtx "e" = cmake_args c5TwinCtx "e" :=
  ⟨rfl, rfl, rfl,
   cmake_args_deterministic linuxCtx c5TwinCtx "e" rfl rfl rfl rfl rfl rfl rfl⟩

-- ===== C1 =====

/-- C1 counterexample: the vcpkg install invocation exits with status 1, yet
build_extension performs it and completes without raising any error — so not
every nonzero subprocess exit aborts the build. -/
theorem install_failure_does_not_abort :
    c1Ctx.exitCode c1InstallCmd = 1
  ∧ Event.proc c1InstallCmd ∈ (CMakeBuild.build_extension c1Ctx "e" "/s").1
  ∧ (CMakeBuild.build_extension c1Ctx "e" "/s").2 = none :=
  ⟨by decide, by decide, by decide⟩

/-- C1 (amended): a nonzero exit of a checked subprocess — the cmake version
probe, the configure invocation or the build invocation — aborts with a
raised error, and those are the only exit statuses that matter:
build_extension succeeds exactly when both checked cmake calls exit zero,
while the check=False subprocesses (vcpkg list/install, the local
zlib/openssl builds) never abort on nonzero exit. -/
theorem build_aborts_iff_checked_call_fails (ctx : BuildCtx) (n s : String)
    (exts : List (String × String))
    (hp : (ctx.environ.lookup "PATH").isNone = false)
    (hw : (ctx.platSystem == "Windows" && !ctx.pathExists (vcpkg_root ctx)) = false) :
    ((CMakeBuild.build_extension ctx n s).2 = none ↔
       ctx.exitCode (configure_cmd ctx n s) = 0 ∧ ctx.exitCode (cmake_build_cmd ctx) = 0)
  ∧ (ctx.exitCode (configure_cmd ctx n s) ≠ 0 →
       (CMakeBuild.build_extension ctx n s).2
         = some (.calledProcessError (configure_cmd ctx n s)))
  ∧ (ctx.exitCode (configure_cmd ctx n s) = 0 → ctx.exitCode (cmake_build_cmd ctx) ≠ 0 →
       (CMakeBuild.build_extension ctx n s).2
         = some (.calledProcessError (cmake_build_cmd ctx)))
  ∧ (ctx.probe = .nonzeroExit →
       (CMakeBuild.run ctx exts).2 = some (.calledProcessError probe_cmd)) := by
  refine ⟨?_, ?_, ?_, ?_⟩
  · by_cases hc : ctx.exitCode (configure_cmd ctx n s) = 0
    · by_cases hb : ctx.exitCode (cmake_build_cmd ctx) = 0
      · simp [CMakeBuild.build_extension, hp, hw, hc, hb]
      · simp [CMakeBuild.build_extension, hp, hw, hc, hb]
    · simp [CMakeBuild.build_extension, hp, hw, hc]
  · intro hc
    simp [CMakeBuild.build_extension, hp, hw, hc]
  · intro hc hb
    simp [CMakeBuild.build_extension, hp, hw, hc, hb]
  · intro hq
    simp [CMakeBuild.run, hq]

/-- C1 witness: the amended theorem applied at linuxCtx, whose checked calls
exit zero. -/
theorem build_aborts_iff_checked_call_fails_witness :
    (linuxCtx.environ.lookup "PATH").isNone = false
  ∧ (linuxCtx.platSystem == "Windows" && !linuxCtx.pathExists (vcpkg_root linuxCtx)) = false
  ∧ (((CMakeBuild.build_extension linuxCtx "e" "/s").2 = none ↔
        linuxCtx.exitCode (configure_cmd linuxCtx "e" "/s") = 0 ∧
          linuxCtx.exitCode (cmake_build_cmd linuxCtx) = 0)
     ∧ (linuxCtx.exitCode (configure_cmd linuxCtx "e" "/s") ≠ 0 →
          (CMakeBuild.build_extension linuxCtx "e" "/s").2
            = some (.calledProcessError (configure_cmd linuxCtx "e" "/s")))
     ∧ (linuxCtx.exitCode (configure_cmd linuxCtx "e" "/s") = 0 →
          linuxCtx.exitCode (cmake_build_cmd linuxCtx) ≠ 0 →
          (CMakeBuild.build_extension linuxCtx "e" "/s").2
            = some (.calledProcessError (cmake_build_cmd linuxCtx)))
     ∧ (linuxCtx.probe = .nonzeroExit →
          (CMakeBuild.run linuxCtx [("e", "/s")]).2
            = some (.calledProcessError probe_cmd))) :=
  ⟨by decide, by decide,
   build_aborts_iff_checked_call_fails linuxCtx "e" "/s" [("e", "/s")]
     (by decide) (by decide)⟩

-- ===== C7 =====

theorem check_and_install_unchecked (ctx : BuildCtx) (ps : List String) (t r : String) :
    ∀ e ∈ check_and_install_packages ctx ps t r, e.isCheckedProc = false := by
  induction ps with
  | nil => simp [check_and_install_packages]
  | cons a as ih =>
    intro e he
    by_cases hc : strContains (ctx.stdoutOf (vcpkg_list_cmd ctx.platSystem a t r)) a
    · simp [check_and_install_packages, hc] at he
      rcases he with he | he
      · subst he; rfl
      · exact ih e he
    · simp [check_and_install_packages, hc] at he
      rcases he with he | he | he
      · subst he; rfl
      · subst he; rfl
      · exact ih e he

theorem pre_events_unchecked (ctx : BuildCtx) :
    ∀ e ∈ dep_events ctx ++ makedirs_events ctx, e.isCheckedProc = false := by
  intro e he
  rcases List.mem_append.mp he with he | he
  · unfold dep_events at he
    by_cases hw : (ctx.platSystem == "Windows") = true
    · rw [if_pos hw] at he
      by_cases hx : ctx.pathExists (vcpkg_root ctx) = true
      · rw [if_pos hx] at he
        exact check_and_install_unchecked ctx _ _ _ e he
      · rw [if_neg hx] at he
        simp at he
    · rw [if_neg hw] at he
      rcases List.mem_append.mp he with he | he
      · by_cases hm : manylinuxRequested ctx = true
        · rw [if_pos hm] at he
          simp at he
          rcases he with he | he <;> (subst he; rfl)
        · rw [if_neg hm] at he
          simp at he
      · by_cases hx : ctx.pathExists (vcpkg_root ctx) = true
        · rw [if_pos hx] at he
          exact check_and_install_unchecked ctx _ _ _ e he
        · rw [if_neg hx] at he
          simp at he
  · unfold makedirs_events at he
    by_cases hb : ctx.pathExists ctx.buildTemp = true
    · rw [if_pos hb] at he
      simp at he
    · rw [if_neg hb] at he
      simp at he
      subst he
      rfl

theorem configure_ne_build (ctx : BuildCtx) (n s : String) :
    configure_cmd ctx n s ≠ cmake_build_cmd ctx := by
  intro h
  rw [configure_cmd, cmake_build_cmd] at h
  injection h with hargv hcwd henv
  have h2 := congrArg (fun l => l[2]?) hargv
  simp [cmake_args, cmake_args_base, build_args] at h2
  have h3 := congrArg String.length h2
  rw [String.length_append] at h3
  have h4 : ("-DCMAKE_LIBRARY_OUTPUT_DIRECTORY=" : String).length = 33 := rfl
  have h5 : ("." : String).length = 1 := rfl
  rw [h4, h5] at h3
  omega

/-- C7 (confirmed): a successful build_extension performs exactly the linear
event sequence dependency-provisioning (zlib/openssl builds and vcpkg
list/install, issued during flag assembly, with installation present
whenever the vcpkg root exists), then the optional makedirs, then exactly
one configure invocation, then exactly one build invocation; the two checked
cmake calls occur nowhere among the earlier events and differ from each
other, so neither is ever repeated and the builder never precedes the
configure step. -/
theorem build_orchestration_sequence (ctx : BuildCtx) (n s : String)
    (hok : (CMakeBuild.build_extension ctx n s).2 = none) :
    (CMakeBuild.build_extension ctx n s).1
      = dep_events ctx ++ makedirs_events ctx ++
        [Event.proc (configure_cmd ctx n s), Event.proc (cmake_build_cmd ctx)]
  ∧ (∀ e ∈ dep_events ctx ++ makedirs_events ctx, e.isCheckedProc = false)
  ∧ Event.proc (configure_cmd ctx n s) ∉ dep_events ctx ++ makedirs_events ctx
  ∧ Event.proc (cmake_build_cmd ctx) ∉ dep_events ctx ++ makedirs_events ctx
  ∧ configure_cmd ctx n s ≠ cmake_build_cmd ctx
  ∧ (ctx.pathExists (vcpkg_root ctx) = true →
      Event.proc (vcpkg_list_cmd ctx.platSystem "curl[ssl]"
          (if ctx.platSystem == "Windows" then "x64-windows-static" else "x64-linux")
          (vcpkg_root ctx)) ∈ dep_events ctx) := by
  refine ⟨?_, pre_events_unchecked ctx, ?_, ?_, configure_ne_build ctx n s, ?_⟩
  · unfold CMakeBuild.build_extension at hok ⊢
    by_cases h1 : (ctx.environ.lookup "PATH").isNone = true
    · simp [h1] at hok
    · by_cases h2 : (ctx.platSystem == "Windows" && !ctx.pathExists (vcpkg_root ctx)) = true
      · simp [h1, h2] at hok
      · by_cases h3 : (ctx.exitCode (configure_cmd ctx n s) != 0) = true
        · simp [h1, h2, h3] at hok
        · by_cases h4 : (ctx.exitCode (cmake_build_cmd ctx) != 0) = true
          · simp [h1, h2, h3, h4] at hok
          · simp [h1, h2, h3, h4]
  · intro hmem
    have hchk := pre_events_unchecked ctx _ hmem
    simp [Event.isCheckedProc, configure_cmd, Cmd.isChecked] at hchk
  · intro hmem
    have hchk := pre_events_unchecked ctx _ hmem
    simp [Event.isCheckedProc, cmake_build_cmd, Cmd.isChecked] at hchk
  · intro hx
    unfold dep_events
    by_cases hw : (ctx.platSystem == "Windows") = true
    · rw [if_pos hw, if_pos hx]
      simp only [hw, if_true]
      by_cases hc : strContains
          (ctx.stdoutOf (vcpkg_list_cmd ctx.platSystem "curl[ssl]" "x64-windows-static"
            (vcpkg_root ctx))) "curl[ssl]"
      <;> simp [check_and_install_packages, hc]
    · rw [if_neg hw, if_pos hx]
      simp only [hw, if_false]
      by_cases hc : strContains
          (ctx.stdoutOf (vcpkg_list_cmd ctx.platSystem "curl[ssl]" "x64-linux"
            (vcpkg_root ctx))) "curl[ssl]"
      <;> simp [check_and_install_packages, hc]

/-- C7 witness: the theorem applied at linuxCtx, whose build succeeds. -/
theorem build_orchestration_sequence_witness :
    (CMakeBuild.build_extension linuxCtx "e" "/s").2 = none
  ∧ ((CMakeBuild.build_extension linuxCtx "e" "/s").1
        = dep_events linuxCtx ++ makedirs_events linuxCtx ++
          [Event.proc (configure_cmd linuxCtx "e" "/s"), Event.proc (cmake_build_cmd linuxCtx)]
     ∧ (∀ e ∈ dep_events linuxCtx ++ makedirs_events linuxCtx, e.isCheckedProc = false)
     ∧ Event.proc (configure_cmd linuxCtx "e" "/s")
         ∉ dep_events linuxCtx ++ makedirs_events linuxCtx
     ∧ Event.proc (cmake_build_cmd linuxCtx) ∉ dep_events linuxCtx ++ makedirs_events linuxCtx
     ∧ configure_cmd linuxCtx "e" "/s" ≠ cmake_build_cmd linuxCtx
     ∧ (linuxCtx.pathExists (vcpkg_root linuxCtx) = true →
         Event.proc (vcpkg_list_cmd linuxCtx.platSystem "curl[ssl]"
             (if linuxCtx.platSystem == "Windows" then "x64-windows-static" else "x64-linux")
             (vcpkg_root linuxCtx)) ∈ dep_events linuxCtx)) :=
  ⟨by decide, build_orchestration_sequence linuxCtx "e" "/s" (by decide)⟩
